import Mathlib

/-!
Shallow embedding of the DANE/TLSA verification engine of `src/ssl_dane.c`
(the `danessl` library: TLSA record store, selector/matching-type matching
engine, trust-anchor chain walk with synthesis, hostname matcher and the
`verify_cert` orchestrator).

Modelling conventions:
  * byte strings are `List Nat`; C strings are `List Char`;
  * OpenSSL primitives (DER encoding, digests, issuer checks, signature
    verification, decoding, certificate fabrication) are supplied by an
    `Env` record of pure functions; certificates and keys are abstract
    types;
  * linked lists (`DANE_*_LIST`) are Lean lists; `LINSERT` prepends;
    OpenSSL `STACK_OF(X509)` push appends at the end;
  * allocation failures (`OPENSSL_malloc`, `sk_*_new`, ...) are not
    modelled: allocation always succeeds;
  * `dane_data.datalen` always equals the length of the copied byte list
    (`memcpy(d->value->data, data, dlen)`), so a stored datum is just the
    byte list and the C comparison `datalen == cmplen && memcmp(...) == 0`
    is list equality.
-/

set_option autoImplicit false

namespace Danessl

/-- Byte strings (unsigned char arrays with an explicit length). -/
abbrev Bytes := List Nat

/-- Modelled from the spec: the TLSA usage constant `SSL_DANE_USAGE_LIMIT_ISSUER`
of the missing header `ssl_dane.h`.  The spec glossary fixes the RFC 6698
values: PKIX-TA = 0 ("constrain which root is acceptable", i.e. limit the
issuer). -/
def SSL_DANE_USAGE_LIMIT_ISSUER : Nat := 0

/-- Modelled from the spec: `SSL_DANE_USAGE_LIMIT_LEAF` (PKIX-EE = 1,
"constrain the leaf within normal PKIX trust"). -/
def SSL_DANE_USAGE_LIMIT_LEAF : Nat := 1

/-- Modelled from the spec: `SSL_DANE_USAGE_TRUSTED_CA` (DANE-TA = 2, "trust
an out-of-band anchor"); corroborated in `src/ssl_dane.c` by the
`DANE_R_NOSIGN_KEY` reason string "Certificate usage 2 requires EC support"
attached to the `SSL_DANE_USAGE_TRUSTED_CA` guard in `SSL_dane_add_tlsa`. -/
def SSL_DANE_USAGE_TRUSTED_CA : Nat := 2

/-- Modelled from the spec: `SSL_DANE_USAGE_FIXED_LEAF` (DANE-EE = 3, "pin the
leaf directly, bypass PKIX"). -/
def SSL_DANE_USAGE_FIXED_LEAF : Nat := 3

/-- Modelled from the spec: `SSL_DANE_USAGE_LAST` (= DANE-EE = 3). -/
def SSL_DANE_USAGE_LAST : Nat := 3

/-- Modelled from the spec: `SSL_DANE_SELECTOR_CERT` (full certificate = 0). -/
def SSL_DANE_SELECTOR_CERT : Nat := 0

/-- Modelled from the spec: `SSL_DANE_SELECTOR_SPKI` (subjectPublicKeyInfo = 1). -/
def SSL_DANE_SELECTOR_SPKI : Nat := 1

/-- Modelled from the spec: `SSL_DANE_SELECTOR_LAST` (= SPKI = 1). -/
def SSL_DANE_SELECTOR_LAST : Nat := 1

/-- `MATCHED_CERT = SSL_DANE_SELECTOR_CERT + 1`: `match` result for a hit on a
full-certificate record. -/
def MATCHED_CERT : Int := SSL_DANE_SELECTOR_CERT + 1

/-- `MATCHED_PKEY = SSL_DANE_SELECTOR_SPKI + 1`: `match` result for a hit on a
public-key record. -/
def MATCHED_PKEY : Int := SSL_DANE_SELECTOR_SPKI + 1

/-- `struct dane_mtype` together with its `DANE_DATA_LIST data`.  `md` is the
digest resolved by `EVP_get_digestbyname` (`none` = a full-object record);
two digests are the same iff the resolved names are equal (EVP_MD pointer
equality).  `mdlen` is set only when `md` is present (the C code leaves it
uninitialized otherwise; it is never read, we store 0).  `data` holds the
associated byte strings, most recently inserted first (`LINSERT`). -/
structure dane_mtype where
  md : Option String
  mdlen : Nat
  data : List Bytes
  deriving Repr, DecidableEq

/-- `struct dane_selector` with its `DANE_MTYPE_LIST mtype`.  `selector` is the
`uint8_t` TLSA selector, validated to be at most `SSL_DANE_SELECTOR_LAST`
by `SSL_dane_add_tlsa`. -/
structure dane_selector where
  selector : Nat
  mtype : List dane_mtype
  deriving Repr, DecidableEq

/-- `struct SSL_DANE`: the per-connection DANE state.  `selectors` models the
array `DANE_SELECTOR_LIST selectors[SSL_DANE_USAGE_LAST + 1]` (only indices
0..3 are ever used); `roots` and `chain` are the synthesized trust stacks
(empty list = NULL stack; the only NULL-ness test in the code,
`!dane->roots` in `verify_chain`, coincides with emptiness because the
roots stack is only ever created together with a push).  The saved
`verify` callback and the `thost` TLSA base domain play no role in the
verified claims and are omitted. -/
structure SSL_DANE (Cert Key : Type) where
  roots : List Cert
  chain : List Cert
  mhost : Option (List Char)
  pkeys : List Key
  certs : List Cert
  hosts : List (List Char)
  selectors : Nat → List dane_selector
  depth : Int
  multi : Bool

/-- The slice of `X509_STORE_CTX` that `ssl_dane.c` touches: the target
certificate `ctx->cert`, the untrusted stack `ctx->untrusted`, the built
chain `ctx->chain`, the trusted stack installed via
`X509_STORE_CTX_trusted_stack` and `ctx->error_depth`. -/
structure X509_STORE_CTX (Cert : Type) where
  cert : Option Cert
  untrusted : List Cert
  chain : Option (List Cert)
  trusted : Option (List Cert)
  error_depth : Int

/-- Process-wide globals of `ssl_dane.c`: the `wrap_signed` capability flag
(set when the OpenSSL release lacks `X509_V_FLAG_PARTIAL_CHAIN`) and the
internal signing key `signkey`. -/
structure Globals (Key : Type) where
  wrap_signed : Bool
  signkey : Option Key

/-- The OpenSSL primitives consumed by `ssl_dane.c`, as pure functions.
`digest` returning `none` models an `EVP_Digest` failure; `decodeCert` and
`decodePubkey` return `none` both on a decoding error and when fewer than
all input bytes are consumed (`dlen != p - data`).  `checkIssued i s`
models `X509_check_issued(i, s) == X509_V_OK`; `verifySig c k` models
`X509_verify(c, k) > 0`.  `fabricate key subject` is the CA certificate
fabricated (and, under `wrap_signed`, signed) by `wrap_key` for `subject`,
with public key `key` (`none` = the internal `signkey`);
`signWithSignkey` models signing an existing certificate in place with
`X509_sign(cert, signkey, signmd)`.  `x509VerifyCert` is the underlying
path builder `X509_verify_cert`, which re-enters the DANE state through
the installed `verify_chain` callback, hence its `SSL_DANE` argument. -/
structure Env (Cert Key : Type) where
  certDER : Cert → Bytes
  spkiDER : Cert → Bytes
  getDigestByName : String → Option String
  mdSize : String → Nat
  digest : String → Bytes → Option Bytes
  checkIssued : Cert → Cert → Bool
  pubkey : Cert → Option Key
  verifySig : Cert → Key → Bool
  decodeCert : Bytes → Option Cert
  decodePubkey : Bytes → Option Key
  akidIssuerName : Cert → Option Bytes
  issuerName : Cert → Bytes
  fabricate : Option Key → Cert → Cert
  signWithSignkey : Cert → Cert
  x509VerifyCert : X509_STORE_CTX Cert → SSL_DANE Cert Key → Int

variable {Cert Key : Type}

/-! ### The matching engine (`match` in `ssl_dane.c`) -/

/-- Innermost loop of `match`: scan one `DANE_DATA_LIST` for a datum equal to
the comparison buffer (`cmplen == d->value->datalen && memcmp(cmpbuf,
d->value->data, cmplen) == 0`); on a hit return `selector + 1`, after
exhaustion return 0. -/
def match_data (cmpbuf : Bytes) (sel : Nat) : List Bytes → Int
  | [] => 0
  | d :: ds => if d = cmpbuf then (sel : Int) + 1 else match_data cmpbuf sel ds

/-- One iteration of the mtype loop of `match`: if the record names a digest,
digest the DER buffer (a failure sets `matched = -1`, skipping the data
loop); otherwise compare the full object. -/
def match_mtype (env : Env Cert Key) (buf : Bytes) (sel : Nat) (m : dane_mtype) : Int :=
  match m.md with
  | none => match_data buf sel m.data
  | some alg =>
    match env.digest alg buf with
    | none => -1
    | some h => match_data h sel m.data

/-- The mtype loop of `match`: `for (m = slist->value->mtype; !matched && m;
m = m->next)`. -/
def match_mtypes (env : Env Cert Key) (buf : Bytes) (sel : Nat) : List dane_mtype → Int
  | [] => 0
  | m :: ms =>
    if match_mtype env buf sel m = 0 then match_mtypes env buf sel ms
    else match_mtype env buf sel m

/-- DER bytes extracted by `match` for one selector: `i2d_X509` for
selector 0, `i2d_X509_PUBKEY(X509_get_X509_PUBKEY(cert))` for selector 1.
The C `switch` has no default branch and leaves the buffer uninitialized
for any other value; such values never occur in a store built by
`SSL_dane_add_tlsa`, which validates `selector <= SSL_DANE_SELECTOR_LAST`. -/
def selector_bytes (env : Env Cert Key) (cert : Cert) (sel : Nat) : Bytes :=
  if sel = SSL_DANE_SELECTOR_CERT then env.certDER cert
  else if sel = SSL_DANE_SELECTOR_SPKI then env.spkiDER cert
  else []

/-- The function `match(slist, cert, depth)` of `ssl_dane.c`: scan the
selector list, extracting the DER form once per selector, and return 0
(no match), `selector + 1` (first hit wins: `MATCHED_CERT`/`MATCHED_PKEY`)
or -1 (digest computation failure).  The `depth` argument is carried but,
as in the C code, never read. -/
def match_tlsa (env : Env Cert Key) (slist : List dane_selector) (cert : Cert) (depth : Int) :
    Int :=
  match slist with
  | [] => 0
  | s :: ss =>
    if match_mtypes env (selector_bytes env cert s.selector) s.selector s.mtype = 0 then
      match_tlsa env ss cert depth
    else match_mtypes env (selector_bytes env cert s.selector) s.selector s.mtype

/-- Specification helper: an mtype entry fails cleanly against a comparison
buffer — its digest (if any) computes, and no stored datum equals the
comparison bytes. -/
def mtype_clean (env : Env Cert Key) (buf : Bytes) (m : dane_mtype) : Bool :=
  match m.md with
  | none => m.data.all (· ≠ buf)
  | some alg =>
    match env.digest alg buf with
    | none => false
    | some h => m.data.all (· ≠ h)

/-- Specification helper: an mtype entry has a genuine hit against a
comparison buffer. -/
def mtype_hit (env : Env Cert Key) (buf : Bytes) (m : dane_mtype) : Bool :=
  match m.md with
  | none => m.data.any (· = buf)
  | some alg =>
    match env.digest alg buf with
    | none => false
    | some h => m.data.any (· = h)

/-! ### The TLSA record store (`SSL_dane_add_tlsa`) -/

/-- The duplicate scan of `SSL_dane_add_tlsa` ("Find insertion point and don't
add duplicate elements"): the triple loop over all selector entries with
the given selector value, all their mtype entries with the given digest,
and all stored data, looking for an identical datum.  The loop contains no
`break` statements, so it scans every group. -/
def record_present (dane : SSL_DANE Cert Key) (usage selector : Nat) (md : Option String)
    (bytes : Bytes) : Bool :=
  (dane.selectors usage).any fun s =>
    s.selector = selector && s.mtype.any fun m =>
      m.md = md && m.data.any fun d => d = bytes

/-- The argument-validation and decoding prefix of `SSL_dane_add_tlsa` (checks
on `usage`, `selector`, `mdname`, `data`, digest length, the
`SSL_DANE_USAGE_TRUSTED_CA && wrap_signed && !signkey` signing-capability
guard, and the full-object decode when `mdname == 0`).  This prefix reads
only the arguments and globals, never the store.  On success it yields the
resolved digest, the record bytes, and the decoded certificate or key to
be cached in the usage-2 anchor side tables (`xlist`/`klist`). -/
def add_tlsa_validated (env : Env Cert Key) (g : Globals Key) (usage selector : Nat)
    (mdname : Option String) (data : Option Bytes) :
    Option (Option String × Bytes × Option Cert × Option Key) :=
  if usage > SSL_DANE_USAGE_LAST then none
  else if selector > SSL_DANE_SELECTOR_LAST then none
  else
    match mdname with
    | some nm =>
      match env.getDigestByName nm with
      | none => none
      | some md =>
        match data with
        | none => none
        | some bytes =>
          if bytes.length ≠ env.mdSize md then none
          else if usage = SSL_DANE_USAGE_TRUSTED_CA ∧ g.wrap_signed ∧ g.signkey.isNone then
            none
          else some (some md, bytes, none, none)
    | none =>
      match data with
      | none => none
      | some bytes =>
        if usage = SSL_DANE_USAGE_TRUSTED_CA ∧ g.wrap_signed ∧ g.signkey.isNone then none
        else if selector = SSL_DANE_SELECTOR_CERT then
          match env.decodeCert bytes with
          | none => none
          | some x =>
            match env.pubkey x with
            | none => none
            | some _ =>
              some (none, bytes,
                if usage = SSL_DANE_USAGE_TRUSTED_CA then some x else none, none)
        else
          match env.decodePubkey bytes with
          | none => none
          | some k =>
            some (none, bytes, none,
              if usage = SSL_DANE_USAGE_TRUSTED_CA then some k else none)

/-- The insertion tail of `SSL_dane_add_tlsa`.  After the duplicate scan the
cursor variables `s` and `m` have both run off the end of their lists (the
scan has no `break` statements), so this code path always allocates a
fresh data node, a fresh mtype node and a fresh selector node and links
them in at the heads of their lists; finally the decoded usage-2
certificate or key (if any) is prepended to the anchor side table. -/
def tlsa_insert (dane : SSL_DANE Cert Key) (usage selector : Nat) (md : Option String)
    (bytes : Bytes) (xopt : Option Cert) (kopt : Option Key) : SSL_DANE Cert Key :=
  let newm : dane_mtype := { md := md, mdlen := if md.isSome then bytes.length else 0,
                             data := [bytes] }
  let news : dane_selector := { selector := selector, mtype := [newm] }
  let dane1 := { dane with
    selectors := Function.update dane.selectors usage (news :: dane.selectors usage) }
  match xopt with
  | some x => { dane1 with certs := x :: dane1.certs }
  | none =>
    match kopt with
    | some k => { dane1 with pkeys := k :: dane1.pkeys }
    | none => dane1

/-- `SSL_dane_add_tlsa(ssl, usage, selector, mdname, data, dlen)`.  The
per-connection store is passed directly (the `dane_idx`/ex-data lookup and
its `-1` failure are outside the model).  Returns the C return value
(0 = rejected, 1 = added or duplicate) together with the new store. -/
def SSL_dane_add_tlsa (env : Env Cert Key) (g : Globals Key) (dane : SSL_DANE Cert Key)
    (usage selector : Nat) (mdname : Option String) (data : Option Bytes) :
    Int × SSL_DANE Cert Key :=
  match add_tlsa_validated env g usage selector mdname data with
  | none => (0, dane)
  | some (md, bytes, xopt, kopt) =>
    if record_present dane usage selector md bytes then (1, dane)
    else (1, tlsa_insert dane usage selector md bytes xopt kopt)

/-! ### The hostname matcher (`match_name`) -/

/-- `strcasecmp(a, b) == 0` on NUL-free LDH strings: equal up to ASCII case. -/
def strcaseEq (a b : List Char) : Bool :=
  a.map Char.toLower = b.map Char.toLower

/-- One iteration of the host loop in `match_name(certid, dane)`, for one
expected name `hostv`.  A leading dot (with a nonempty remainder) requests
sub-domain matching: the certificate identifier matches if it is a strict
sub-domain (`idlen > domlen + 1`, a dot right before the suffix, and a
case-insensitive suffix match).  Otherwise an exact case-insensitive
match, or a leading `*.` wildcard in `certid` (with `certid[2] != 0`)
matching against the part of the expected name from its first dot
(`parent = strchr(domain, '.')`): all of `parent` in single-label mode, or
its last `idlen` characters in multi-label mode. -/
def match_name_one (certid : List Char) (multi : Bool) (hostv : List Char) : Bool :=
  match hostv with
  | '.' :: d :: ds =>
    let domain := d :: ds
    let idlen := certid.length
    let domlen := domain.length
    decide (domlen + 1 < idlen) &&
      (certid.getD (idlen - domlen - 1) 'a' = '.') &&
      strcaseEq (certid.drop (idlen - domlen)) domain
  | _ =>
    strcaseEq certid hostv ||
      match certid with
      | '*' :: '.' :: _ :: _ =>
        let parent := hostv.dropWhile (· ≠ '.')
        let idlen := certid.length - 1
        let domlen := parent.length
        !parent.isEmpty && decide (idlen ≤ domlen) &&
          strcaseEq (if multi then parent.drop (domlen - idlen) else parent)
            (certid.drop 1)
      | _ => false

/-- `match_name(certid, dane)`: first matching expected name wins.  The C
function receives the whole `SSL_DANE` state; it reads only `dane->multi`
and `dane->hosts`, which are passed here directly. -/
def match_name (certid : List Char) (multi : Bool) : List (List Char) → Bool
  | [] => false
  | h :: t => match_name_one certid multi h || match_name certid multi t

/-! ### Connection state initialization (`SSL_dane_init`) -/

/-- `host_list_init(src)`: copy the NUL-terminated array of expected names
into a `DANE_HOST_LIST`; `LINSERT` builds the list in reverse order.  The
unchecked `OPENSSL_strdup` and element allocations are not modelled
(allocation always succeeds), so the NULL result of the C function occurs
exactly when the input array is empty. -/
def host_list_init (src : List (List Char)) : List (List Char) :=
  src.foldl (fun head s => s :: head) []

/-- `SSL_dane_init(ssl, sni_domain, hostnames)`.  `mem` is the freshly
`OPENSSL_malloc`ed, uninitialized `SSL_DANE` structure (its field values
are arbitrary heap contents); `sni_ok` is the result of the external
`SSL_set_tlsext_host_name` call (vacuously true when `sni_domain` is
NULL); `hostnames` is NULL or a NUL-terminated array.  Returns the C
return value together with the state installed in the SSL handle's
ex-data slot (`none` when the function failed and no state remains
installed).  Note that `dane->hosts` is assigned only inside the
`if (hostnames && ...)` branch: on the NULL path the field keeps the
uninitialized heap contents `mem.hosts`.  When `hostnames` is a non-NULL
empty array, `host_list_init` returns NULL, which `SSL_dane_init` treats
as a malloc failure: it calls `SSL_dane_cleanup` (destroying the state)
and returns 0. -/
def SSL_dane_init (mem : SSL_DANE Cert Key) (sni_ok : Bool)
    (hostnames : Option (List (List Char))) : Int × Option (SSL_DANE Cert Key) :=
  if !sni_ok then (0, none)
  else
    let dane : SSL_DANE Cert Key :=
      { mem with pkeys := [], certs := [], chain := [], roots := [],
                 depth := -1, mhost := none, multi := false,
                 selectors := fun _ => [] }
    match hostnames with
    | none => (1, some dane)
    | some hs =>
      let h := host_list_init hs
      if h.isEmpty then (0, none)
      else (1, some { dane with hosts := h })

/-! ### Trust-anchor synthesis (`wrap_key`, `wrap_cert`) and the signature
fallback (`ta_signed`) -/

/-- The self-signedness test of `wrap_key`: the subject's authority key
identifier names no issuer (`akid_issuer_name` is NULL — also covering a
missing AKID extension), or that name equals the subject's issuer name
(`X509_NAME_cmp(name, akid_name) == 0`). -/
def akid_selfsigned (env : Env Cert Key) (subject : Cert) : Bool :=
  match env.akidIssuerName subject with
  | none => true
  | some an => env.issuerName subject = an

/-- `wrap_key(dane, depth, NULL, subject)`: generate a self-signed root CA
carrying the internal `signkey`.  Records the trust-anchor depth if not
yet set; the fabricated certificate always joins the roots stack (the
`key && !selfsigned && wrap_signed` chain test is false for a NULL key)
and no recursive wrapping occurs.  Fabrication, extension pushing and
signing failures are not modelled. -/
def wrap_key_root (env : Env Cert Key) (dane : SSL_DANE Cert Key) (depth : Nat)
    (subject : Cert) : Bool × SSL_DANE Cert Key :=
  let dane1 := { dane with
    depth := if dane.depth < 0 then (depth : Int) + 1 else dane.depth }
  let cert := env.fabricate none subject
  (true, { dane1 with roots := dane1.roots ++ [cert] })

/-- `wrap_key(dane, depth, key, subject)`: fabricate a CA certificate for the
issuer name of `subject` carrying public key `key` (or, for a NULL key,
the internal `signkey`).  Under `wrap_signed`, a non-self-signed
fabricated CA is recursively wrapped one level up with the internal
signing key (the recursive call passes a NULL key, hence terminates), and
then joins the untrusted chain; otherwise it joins the roots stack. -/
def wrap_key (env : Env Cert Key) (g : Globals Key) (dane : SSL_DANE Cert Key) (depth : Nat)
    (key : Option Key) (subject : Cert) : Bool × SSL_DANE Cert Key :=
  match key with
  | none => wrap_key_root env dane depth subject
  | some _ =>
    let dane1 := { dane with
      depth := if dane.depth < 0 then (depth : Int) + 1 else dane.depth }
    let selfsigned := akid_selfsigned env subject
    let cert := env.fabricate key subject
    if g.wrap_signed && !selfsigned then
      let r := wrap_key_root env dane1 (depth + 1) cert
      if !r.fst then (false, r.snd)
      else (true, { r.snd with chain := r.snd.chain ++ [cert] })
    else
      (true, { dane1 with roots := dane1.roots ++ [cert] })

/-- `wrap_cert(dane, depth, tacert, subject)`: record the trust-anchor depth;
a self-issued TA certificate (or any TA certificate when the library
supports partial chains, `!wrap_signed`) goes directly onto the roots
stack.  Otherwise the TA certificate is deep-copied via an `i2d`/`d2i`
round trip (value semantics: the copy equals the original), pushed onto
the untrusted chain, signed in place with the internal `signkey` and
recursively wrapped one level up. -/
def wrap_cert (env : Env Cert Key) (g : Globals Key) (dane : SSL_DANE Cert Key) (depth : Nat)
    (tacert subject : Cert) : Bool × SSL_DANE Cert Key :=
  let dane1 := { dane with depth := (depth : Int) }
  if !g.wrap_signed || env.checkIssued tacert tacert then
    (true, { dane1 with roots := dane1.roots ++ [tacert] })
  else
    let cert := env.signWithSignkey tacert
    let dane2 := { dane1 with chain := dane1.chain ++ [cert] }
    wrap_key env g dane2 (depth + 1) g.signkey cert

/-- The certificate loop of `ta_signed`: find a registered bare TA certificate
that issued `cert` (name comparison first); a missing public key on such a
candidate is a fatal error (-1); if its key verifies the signature, wrap
the TA certificate one level up (failure is fatal). -/
def ta_signed_certs (env : Env Cert Key) (g : Globals Key) (cert : Cert) (depth : Nat) :
    List Cert → SSL_DANE Cert Key → Int × SSL_DANE Cert Key
  | [], dane => (0, dane)
  | x :: xs, dane =>
    if env.checkIssued x cert then
      match env.pubkey x with
      | none => (-1, dane)
      | some pk =>
        if env.verifySig cert pk then
          let r := wrap_cert env g dane (depth + 1) x cert
          (if r.fst then 1 else -1, r.snd)
        else ta_signed_certs env g cert depth xs dane
    else ta_signed_certs env g cert depth xs dane

/-- The bare-key loop of `ta_signed`: find a registered bare TA public key
that verifies the signature of `cert` and wrap it (at the same depth). -/
def ta_signed_keys (env : Env Cert Key) (g : Globals Key) (cert : Cert) (depth : Nat) :
    List Key → SSL_DANE Cert Key → Int × SSL_DANE Cert Key
  | [], dane => (0, dane)
  | k :: ks, dane =>
    if env.verifySig cert k then
      let r := wrap_key env g dane depth (some k) cert
      (if r.fst then 1 else -1, r.snd)
    else ta_signed_keys env g cert depth ks dane

/-- `ta_signed(dane, cert, depth)`: the signature fallback.  First try the
registered bare TA certificates, then the registered bare TA public keys;
returns 0 when neither matches, 1 on a successful wrap, -1 on a fatal
error. -/
def ta_signed (env : Env Cert Key) (g : Globals Key) (dane : SSL_DANE Cert Key) (cert : Cert)
    (depth : Nat) : Int × SSL_DANE Cert Key :=
  let r := ta_signed_certs env g cert depth dane.certs dane
  if r.fst ≠ 0 then r
  else ta_signed_keys env g cert depth r.snd.pkeys r.snd

/-! ### The chain walk (`set_trust_anchor`) -/

/-- The issuer scan inside the walk loop: `for (i = 0; i < n; ++i)` looking
for the first remaining untrusted certificate that issued `cert`. -/
def find_issuer_idx (env : Env Cert Key) (inL : List Cert) (cert : Cert) : Option Nat :=
  inL.findIdx? fun ca => env.checkIssued ca cert

/-- The walk loop of `set_trust_anchor`: `for (n = sk_X509_num(in); n > 0;
--n, ++depth)`.  `n` is the loop counter (initially the length of the
working copy of the untrusted stack, kept in step with it by
`sk_X509_delete`).  Each iteration consumes the issuer of the current
subject: no issuer found ends the walk with the subject unresolved;
otherwise the consumed issuer is matched against the usage-2
(`SSL_DANE_USAGE_TRUSTED_CA`) records at `depth + 1`.  On no match a
non-self-signed issuer is recorded on the untrusted chain and becomes the
new subject; a self-signed issuer is recorded and ends the walk with the
subject cleared ("Final self-signed element, skip ta_signed() check").  A
`MATCHED_CERT` hit invokes `wrap_cert`, a `MATCHED_PKEY` hit extracts the
issuer's public key (a NULL key is fatal) and invokes `wrap_key`; a
digest error (-1) ends the walk.  Returns the match result, the updated
state, the unresolved subject (if any) and the final depth. -/
def sta_loop (env : Env Cert Key) (g : Globals Key) (dane : SSL_DANE Cert Key) (n : Nat)
    (inL : List Cert) (cert : Cert) (depth : Nat) :
    Int × SSL_DANE Cert Key × Option Cert × Nat :=
  match n with
  | 0 => (0, dane, some cert, depth)
  | n + 1 =>
    match find_issuer_idx env inL cert with
    | none => (0, dane, some cert, depth)
    | some i =>
      let ca := inL.getD i cert
      let inL1 := inL.eraseIdx i
      let matched := match_tlsa env (dane.selectors SSL_DANE_USAGE_TRUSTED_CA) ca
        ((depth : Int) + 1)
      if matched = 0 then
        let dane1 := { dane with chain := dane.chain ++ [ca] }
        if !env.checkIssued ca ca then sta_loop env g dane1 n inL1 ca (depth + 1)
        else (0, dane1, none, depth)
      else if matched = MATCHED_CERT then
        let r := wrap_cert env g dane depth ca cert
        (if r.fst then matched else -1, r.snd, some cert, depth)
      else if matched = MATCHED_PKEY then
        match env.pubkey ca with
        | none => (-1, dane, some cert, depth)
        | some takey =>
          let r := wrap_key env g dane depth (some takey) cert
          (if r.fst then matched else -1, r.snd, some cert, depth)
      else (matched, dane, some cert, depth)

/-- `set_trust_anchor(ctx, dane, cert)`: the degenerate depth-0 self-signed
case matches the leaf itself against the usage-2 records (a hit goes
straight onto the roots stack and returns without touching `ctx`);
otherwise the walk runs on a shallow copy of `ctx->untrusted`.  If the
walk ends with matched 0 and an unresolved subject, the `ta_signed`
fallback runs; with a cleared subject the fallback is skipped.  Any
positive match installs the accumulated roots and chain into the store
context (`X509_STORE_CTX_trusted_stack` and `X509_STORE_CTX_set_chain`;
the latter sets `ctx->untrusted`, as the code itself asserts). -/
def set_trust_anchor (env : Env Cert Key) (g : Globals Key) (dane : SSL_DANE Cert Key)
    (ctx : X509_STORE_CTX Cert) (cert : Cert) :
    Int × SSL_DANE Cert Key × X509_STORE_CTX Cert :=
  if env.checkIssued cert cert then
    let matched := match_tlsa env (dane.selectors SSL_DANE_USAGE_TRUSTED_CA) cert 0
    if 0 < matched then (matched, { dane with roots := dane.roots ++ [cert] }, ctx)
    else (matched, dane, ctx)
  else
    let r := sta_loop env g dane ctx.untrusted.length ctx.untrusted cert 0
    match r with
    | (matched, dane1, certOpt, depth1) =>
      if matched < 0 then (matched, dane1, ctx)
      else if matched = 0 then
        match certOpt with
        | none => (0, dane1, ctx)
        | some c =>
          let r2 := ta_signed env g dane1 c depth1
          if r2.fst ≤ 0 then (r2.fst, r2.snd, ctx)
          else (r2.fst, r2.snd,
            { ctx with trusted := some r2.snd.roots, untrusted := r2.snd.chain })
      else (matched, dane1,
        { ctx with trusted := some dane1.roots, untrusted := dane1.chain })

/-! ### The orchestrator (`check_end_entity`, `verify_cert`) -/

/-- `check_end_entity(ctx, dane, cert)`: match the leaf against the usage-3
(`SSL_DANE_USAGE_FIXED_LEAF`) records; on a hit, make sure `ctx->chain`
exists, creating it with just the leaf certificate when it is NULL. -/
def check_end_entity (env : Env Cert Key) (ctx : X509_STORE_CTX Cert)
    (dane : SSL_DANE Cert Key) (cert : Cert) : Int × X509_STORE_CTX Cert :=
  let matched := match_tlsa env (dane.selectors SSL_DANE_USAGE_FIXED_LEAF) cert 0
  if 0 < matched then
    match ctx.chain with
    | none => (matched, { ctx with chain := some [cert] })
    | some _ => (matched, ctx)
  else (matched, ctx)

/-- Result of `verify_cert`: the returned int, the final DANE state and store
context, plus two observables of the control flow: whether
`set_trust_anchor` ran (`ranWalk`) and whether control was delegated to
the underlying `X509_verify_cert` path builder (`delegated`) — the phase
in which, through the installed `verify_chain` wrapper, the usage-0/1
presence check and the hostname check take place. -/
structure verify_cert_result (Cert Key : Type) where
  ret : Int
  dane : SSL_DANE Cert Key
  ctx : X509_STORE_CTX Cert
  ranWalk : Bool
  delegated : Bool

/-- The tail of `verify_cert` after the usage-3 short-circuit: run
`set_trust_anchor` when usage-2 records exist (a negative result is
fatal), then save the original verifier, install `verify_chain` and
delegate to `X509_verify_cert`. -/
def verify_cert_tail (env : Env Cert Key) (g : Globals Key) (dane : SSL_DANE Cert Key)
    (ctx : X509_STORE_CTX Cert) (cert : Cert) : verify_cert_result Cert Key :=
  if (dane.selectors SSL_DANE_USAGE_TRUSTED_CA).isEmpty then
    { ret := env.x509VerifyCert ctx dane, dane := dane, ctx := ctx,
      ranWalk := false, delegated := true }
  else
    let r := set_trust_anchor env g dane ctx cert
    if r.fst < 0 then
      { ret := -1, dane := r.snd.fst, ctx := r.snd.snd, ranWalk := true, delegated := false }
    else
      { ret := env.x509VerifyCert r.snd.snd r.snd.fst, dane := r.snd.fst, ctx := r.snd.snd,
        ranWalk := true, delegated := true }

/-- `verify_cert(ctx, unused_ctx)`: the DANE verification orchestrator
installed by `SSL_CTX_dane_init` as the context's cert-verify callback.
The `dane_idx`/ex-data lookups are outside the model: the per-connection
state is passed directly, and a NULL `ctx->cert` falls through to plain
`X509_verify_cert`.  When usage-3 records exist, a leaf hit accepts
immediately through the original verify callback `cb` with
`ctx->error_depth = 0` (bypassing the walk and the delegated path build);
a negative end-entity result is fatal.  Otherwise control proceeds to
`verify_cert_tail`. -/
def verify_cert (env : Env Cert Key) (g : Globals Key) (cb : Int → Int)
    (dane : SSL_DANE Cert Key) (ctx : X509_STORE_CTX Cert) : verify_cert_result Cert Key :=
  match ctx.cert with
  | none =>
    { ret := env.x509VerifyCert ctx dane, dane := dane, ctx := ctx,
      ranWalk := false, delegated := true }
  | some cert =>
    if (dane.selectors SSL_DANE_USAGE_FIXED_LEAF).isEmpty then
      verify_cert_tail env g dane ctx cert
    else
      let r := check_end_entity env ctx dane cert
      if 0 < r.fst then
        { ret := cb 1, dane := dane, ctx := { r.snd with error_depth := 0 },
          ranWalk := false, delegated := false }
      else if r.fst < 0 then
        { ret := -1, dane := dane, ctx := r.snd, ranWalk := false, delegated := false }
      else verify_cert_tail env g dane r.snd cert

/-! ### A concrete environment for evaluating the model

Certificates and keys are numbered: certificate 0 is the peer leaf,
certificate 1 an issuer presented in the peer chain, key 5 a registered
bare trust-anchor key.  The DER of certificate `c` is `[c]`, its SPKI DER
is `[c + 100]`; the only known digest is "sha256", of output size 2,
digesting `b` to `[b.sum, 1]`. -/

def env0 : Env Nat Nat :=
  { certDER := fun c => [c]
  , spkiDER := fun c => [c + 100]
  , getDigestByName := fun s => if s = "sha256" then some "sha256" else none
  , mdSize := fun _ => 2
  , digest := fun _ b => some [b.sum, 1]
  , checkIssued := fun i s => (i = 1 && s = 0) || (i = 1 && s = 1)
  , pubkey := fun c => some (c + 10)
  , verifySig := fun c k => c = 1 && k = 5
  , decodeCert := fun b => if b = [3] then some 3 else none
  , decodePubkey := fun b => if b = [4] then some 4 else none
  , akidIssuerName := fun _ => none
  , issuerName := fun _ => []
  , fabricate := fun _ s => s + 50
  , signWithSignkey := fun c => c + 60
  , x509VerifyCert := fun _ _ => 77 }

/-- Globals of a pre-1.0.2 OpenSSL build: no partial-chain support, signing
key generated. -/
def g0 : Globals Nat := { wrap_signed := true, signkey := some 42 }

/-- An empty, freshly initialized per-connection state. -/
def dane0 : SSL_DANE Nat Nat :=
  { roots := [], chain := [], mhost := none, pkeys := [], certs := [],
    hosts := [], selectors := fun _ => [], depth := -1, multi := false }

/-- A store context whose target certificate is the leaf 0 and whose
untrusted stack holds the issuer 1. -/
def ctx0 : X509_STORE_CTX Nat :=
  { cert := some 0, untrusted := [1], chain := none, trusted := none, error_depth := 5 }

/-- The identity verify callback (the demo client's callback returns 1, i.e.
its argument, for the accept case). -/
def cb0 : Int → Int := fun ok => ok

/-- A usage record whose single full-object datum is `bytes`. -/
def rawRecord (selector : Nat) (bytes : Bytes) : dane_selector :=
  { selector := selector, mtype := [{ md := none, mdlen := 0, data := [bytes] }] }

/-! ### Helper lemmas about the record store -/

/-- A freshly inserted record is found by the duplicate scan: the new selector
node sits at the head of its usage's selector list. -/
theorem record_present_insert (dane : SSL_DANE Cert Key) (u sel : Nat) (md : Option String)
    (bytes : Bytes) (x : Option Cert) (k : Option Key) :
    record_present (tlsa_insert dane u sel md bytes x k) u sel md bytes = true := by
  unfold tlsa_insert record_present
  cases x <;> cases k <;> simp

/-! ### Claim theorems: the TLSA record store -/

/-- C3: a record tuple whose insertion via `SSL_dane_add_tlsa` succeeded is
inserted idempotently: a second call with the identical tuple also returns
success (1) and leaves the record store completely unchanged — the
duplicate scan finds the stored datum and no second copy is added. -/
theorem C3_thm (env : Env Cert Key) (g : Globals Key) (dane : SSL_DANE Cert Key)
    (u sel : Nat) (mdn : Option String) (dat : Option Bytes)
    (h : (SSL_dane_add_tlsa env g dane u sel mdn dat).fst = 1) :
    SSL_dane_add_tlsa env g (SSL_dane_add_tlsa env g dane u sel mdn dat).snd u sel mdn dat
      = (1, (SSL_dane_add_tlsa env g dane u sel mdn dat).snd) := by
  unfold SSL_dane_add_tlsa at h ⊢
  cases hv : add_tlsa_validated env g u sel mdn dat with
  | none => rw [hv] at h; simp at h
  | some v =>
    obtain ⟨md, bytes, x, k⟩ := v
    rw [hv] at h
    by_cases hp : record_present dane u sel md bytes = true
    · simp [hp]
    · simp only [Bool.not_eq_true] at hp
      simp [hp, record_present_insert]

/-- C3 witness: inserting the sha256 record (usage 3, selector 0, data
`[1, 2]`) into the empty store succeeds, and re-inserting it returns 1 and
leaves the store untouched. -/
theorem C3_witness :
    SSL_dane_add_tlsa env0 g0
        (SSL_dane_add_tlsa env0 g0 dane0 SSL_DANE_USAGE_FIXED_LEAF SSL_DANE_SELECTOR_CERT
          (some "sha256") (some [1, 2])).snd
        SSL_DANE_USAGE_FIXED_LEAF SSL_DANE_SELECTOR_CERT (some "sha256") (some [1, 2])
      = (1, (SSL_dane_add_tlsa env0 g0 dane0 SSL_DANE_USAGE_FIXED_LEAF SSL_DANE_SELECTOR_CERT
          (some "sha256") (some [1, 2])).snd) :=
  C3_thm env0 g0 dane0 SSL_DANE_USAGE_FIXED_LEAF SSL_DANE_SELECTOR_CERT
    (some "sha256") (some [1, 2]) (by decide)

/-- C10: every record that passes `SSL_dane_add_tlsa`'s argument validation is
accepted with return value 1 on every store — whether the duplicate scan
finds it already present or a fresh insertion happens — so the Inserted
and Duplicate outcomes cannot be told apart from the return value at the
public interface. -/
theorem C10_thm (env : Env Cert Key) (g : Globals Key) (u sel : Nat) (mdn : Option String)
    (dat : Option Bytes) (v : Option String × Bytes × Option Cert × Option Key)
    (hv : add_tlsa_validated env g u sel mdn dat = some v) :
    ∀ dane : SSL_DANE Cert Key, (SSL_dane_add_tlsa env g dane u sel mdn dat).fst = 1 := by
  intro dane
  unfold SSL_dane_add_tlsa
  rw [hv]
  obtain ⟨md, bytes, x, k⟩ := v
  by_cases hp : record_present dane u sel md bytes = true
  · simp [hp]
  · simp only [Bool.not_eq_true] at hp
    simp [hp]

/-- C10 witness: the sha256 record (usage 3, selector 0, data `[1, 2]`) is
valid, and `SSL_dane_add_tlsa` returns 1 both on the empty store (fresh
insertion) and on the store already holding it (duplicate). -/
theorem C10_witness :
    (SSL_dane_add_tlsa env0 g0 dane0 SSL_DANE_USAGE_FIXED_LEAF SSL_DANE_SELECTOR_CERT
      (some "sha256") (some [1, 2])).fst = 1 ∧
    (SSL_dane_add_tlsa env0 g0
      (SSL_dane_add_tlsa env0 g0 dane0 SSL_DANE_USAGE_FIXED_LEAF SSL_DANE_SELECTOR_CERT
        (some "sha256") (some [1, 2])).snd
      SSL_DANE_USAGE_FIXED_LEAF SSL_DANE_SELECTOR_CERT (some "sha256") (some [1, 2])).fst = 1 :=
  ⟨C10_thm env0 g0 SSL_DANE_USAGE_FIXED_LEAF SSL_DANE_SELECTOR_CERT (some "sha256")
      (some [1, 2]) (some "sha256", [1, 2], none, none) (by decide) dane0,
   C10_thm env0 g0 SSL_DANE_USAGE_FIXED_LEAF SSL_DANE_SELECTOR_CERT (some "sha256")
      (some [1, 2]) (some "sha256", [1, 2], none, none) (by decide) _⟩

/-- C8: the grouping invariant fails on this code.  The duplicate scan of
`SSL_dane_add_tlsa` has no `break` statements, so after it the insertion
cursors `s` and `m` are always NULL and every fresh insertion allocates a
new selector node and a new mtype node.  Inserting two different data
under the same (usage 3, selector 0, sha256) key therefore leaves two
selector-list entries with the same selector value (each holding a single
sha256 mtype node with a single datum), not one selector entry with one
mtype group containing both data. -/
theorem C8_thm :
    ((SSL_dane_add_tlsa env0 g0
        (SSL_dane_add_tlsa env0 g0 dane0 SSL_DANE_USAGE_FIXED_LEAF SSL_DANE_SELECTOR_CERT
          (some "sha256") (some [1, 2])).snd
        SSL_DANE_USAGE_FIXED_LEAF SSL_DANE_SELECTOR_CERT (some "sha256")
        (some [3, 4])).snd.selectors SSL_DANE_USAGE_FIXED_LEAF)
      = [{ selector := 0, mtype := [{ md := some "sha256", mdlen := 2, data := [[3, 4]] }] },
         { selector := 0, mtype := [{ md := some "sha256", mdlen := 2, data := [[1, 2]] }] }] := by
  decide

/-! ### Claim theorems: the hostname matcher -/

/-- C5: in non-multi-label mode the certificate identifier `*.example.com`
matches the expected name `a.example.com` but neither `example.com` nor
`a.b.example.com`; the sub-domain expected name `.example.com` is matched
by the certificate identifiers `a.example.com` and `a.b.example.com` but
not by `example.com` itself. -/
theorem C5_thm :
    match_name "*.example.com".toList false ["a.example.com".toList] = true ∧
    match_name "*.example.com".toList false ["example.com".toList] = false ∧
    match_name "*.example.com".toList false ["a.b.example.com".toList] = false ∧
    match_name "a.example.com".toList false [".example.com".toList] = true ∧
    match_name "a.b.example.com".toList false [".example.com".toList] = true ∧
    match_name "example.com".toList false [".example.com".toList] = false := by
  decide

/-! ### Claim theorems: connection-state initialization -/

/-- C6: `SSL_dane_init` with a non-NULL but empty `hostnames` array fails —
`host_list_init` returns NULL for the empty array and `SSL_dane_init`
mistakes that for a malloc failure, destroys the freshly created state via
`SSL_dane_cleanup` and returns 0 — contradicting the specified behaviour
that an empty expected-hostname list succeeds with hostname enforcement
disabled. -/
theorem C6_thm : ∀ (Cert Key : Type) (mem : SSL_DANE Cert Key),
    SSL_dane_init mem true (some []) = (0, none) := by
  intro Cert Key mem
  rfl

/-- C9: `SSL_dane_init` with NULL `hostnames` returns success, but the `hosts`
field of the installed state is never assigned: it still holds whatever
the freshly `OPENSSL_malloc`ed memory contained (`mem.hosts`), for every
possible junk content — so later hostname checks and `SSL_dane_cleanup`
read an unassigned field. -/
theorem C9_thm : ∀ (Cert Key : Type) (mem : SSL_DANE Cert Key),
    (SSL_dane_init mem true none).fst = 1 ∧
    ∃ d, (SSL_dane_init mem true none).snd = some d ∧ d.hosts = mem.hosts := by
  intro Cert Key mem
  exact ⟨rfl, _, rfl, rfl⟩

/-! ### Helper lemmas about the orchestrator -/

/-- The int result of `check_end_entity` is exactly the usage-3 match result
(the function only conditionally creates `ctx->chain`). -/
theorem check_end_entity_fst (env : Env Cert Key) (ctx : X509_STORE_CTX Cert)
    (dane : SSL_DANE Cert Key) (cert : Cert) :
    (check_end_entity env ctx dane cert).fst
      = match_tlsa env (dane.selectors SSL_DANE_USAGE_FIXED_LEAF) cert 0 := by
  unfold check_end_entity
  cases hch : ctx.chain <;>
    by_cases h : 0 < match_tlsa env (dane.selectors SSL_DANE_USAGE_FIXED_LEAF) cert 0 <;>
      simp [hch, h]

/-- A usage-3 match on the leaf makes `verify_cert` return through the
original callback with `cb 1`, error depth 0, the store untouched, and
neither the walk nor the delegated path build running. -/
theorem verify_cert_ee_accept (env : Env Cert Key) (g : Globals Key) (cb : Int → Int)
    (dane : SSL_DANE Cert Key) (ctx : X509_STORE_CTX Cert) (cert : Cert)
    (hc : ctx.cert = some cert)
    (hm : 0 < match_tlsa env (dane.selectors SSL_DANE_USAGE_FIXED_LEAF) cert 0) :
    verify_cert env g cb dane ctx =
      { ret := cb 1, dane := dane,
        ctx := { (check_end_entity env ctx dane cert).snd with error_depth := 0 },
        ranWalk := false, delegated := false } := by
  have hne : (dane.selectors SSL_DANE_USAGE_FIXED_LEAF).isEmpty = false := by
    cases h3 : dane.selectors SSL_DANE_USAGE_FIXED_LEAF with
    | nil => rw [h3] at hm; simp [match_tlsa] at hm
    | cons a l => rfl
  unfold verify_cert
  rw [hc]
  simp only [hne, Bool.false_eq_true, if_false]
  have hfst := check_end_entity_fst env ctx dane cert
  rw [if_pos (by rw [hfst]; exact hm)]

/-! ### Claim theorems: the usage-3 (DANE-EE) short-circuit -/

/-- Replace the expected hostnames and the usage-0 (PKIX-TA) and usage-1
(PKIX-EE) record lists of a DANE state, leaving everything else — in
particular the usage-2 and usage-3 records — unchanged. -/
def with_policy (dane : SSL_DANE Cert Key) (hosts1 : List (List Char))
    (s0 s1 : List dane_selector) : SSL_DANE Cert Key :=
  { dane with
    hosts := hosts1
    selectors := fun u =>
      if u = SSL_DANE_USAGE_LIMIT_ISSUER then s0
      else if u = SSL_DANE_USAGE_LIMIT_LEAF then s1
      else dane.selectors u }

/-- C2: when the connection holds usage-3 (DANE-EE) records and the peer's
leaf certificate matches one of them, `verify_cert` accepts immediately
through the original callback with `cb 1` and error depth 0: the
trust-anchor walk does not run, control is never delegated to the
underlying path builder (where, through `verify_chain`, the usage-0/1
presence check and the hostname check live), the DANE state is untouched,
and the outcome is the same for every expected-hostname list and every
usage-0/usage-1 record store. -/
theorem C2_thm (env : Env Cert Key) (g : Globals Key) (cb : Int → Int)
    (dane : SSL_DANE Cert Key) (ctx : X509_STORE_CTX Cert) (cert : Cert)
    (hc : ctx.cert = some cert)
    (hm : 0 < match_tlsa env (dane.selectors SSL_DANE_USAGE_FIXED_LEAF) cert 0) :
    (verify_cert env g cb dane ctx).ret = cb 1 ∧
    (verify_cert env g cb dane ctx).ranWalk = false ∧
    (verify_cert env g cb dane ctx).delegated = false ∧
    (verify_cert env g cb dane ctx).ctx.error_depth = 0 ∧
    (verify_cert env g cb dane ctx).dane = dane ∧
    ∀ (hosts1 : List (List Char)) (s0 s1 : List dane_selector),
      (verify_cert env g cb (with_policy dane hosts1 s0 s1) ctx).ret = cb 1 := by
  have h := verify_cert_ee_accept env g cb dane ctx cert hc hm
  refine ⟨by rw [h], by rw [h], by rw [h], by rw [h], by rw [h], ?_⟩
  intro hosts1 s0 s1
  have hm2 : 0 < match_tlsa env
      ((with_policy dane hosts1 s0 s1).selectors SSL_DANE_USAGE_FIXED_LEAF) cert 0 := by
    simpa [with_policy, SSL_DANE_USAGE_FIXED_LEAF, SSL_DANE_USAGE_LIMIT_ISSUER,
           SSL_DANE_USAGE_LIMIT_LEAF] using hm
  rw [verify_cert_ee_accept env g cb _ ctx cert hc hm2]

/-- C2 witness: with a usage-3 full-certificate record for leaf certificate 0,
`verify_cert` returns `cb0 1 = 1` without running the walk or the
delegated path build. -/
theorem C2_witness :
    (verify_cert env0 g0 cb0
        { dane0 with selectors := fun u =>
            if u = SSL_DANE_USAGE_FIXED_LEAF then [rawRecord 0 [0]] else [] }
        ctx0).ret = cb0 1 ∧
    (verify_cert env0 g0 cb0
        { dane0 with selectors := fun u =>
            if u = SSL_DANE_USAGE_FIXED_LEAF then [rawRecord 0 [0]] else [] }
        ctx0).ranWalk = false ∧
    (verify_cert env0 g0 cb0
        { dane0 with selectors := fun u =>
            if u = SSL_DANE_USAGE_FIXED_LEAF then [rawRecord 0 [0]] else [] }
        ctx0).delegated = false := by
  have h := C2_thm env0 g0 cb0
    { dane0 with selectors := fun u =>
        if u = SSL_DANE_USAGE_FIXED_LEAF then [rawRecord 0 [0]] else [] }
    ctx0 0 (by decide) (by decide)
  exact ⟨h.1, h.2.1, h.2.2.1⟩

/-! ### Helper lemmas about the matching engine -/

/-- The data scan returns 0 exactly when no stored datum equals the
comparison buffer. -/
theorem match_data_eq_zero (cmp : Bytes) (sel : Nat) (ds : List Bytes) :
    match_data cmp sel ds = 0 ↔ ∀ d ∈ ds, d ≠ cmp := by
  induction ds with
  | nil => simp [match_data]
  | cons d ds ih =>
    by_cases h : d = cmp
    · simp only [match_data, if_pos h]
      constructor
      · intro hz; omega
      · intro hall
        exact absurd h (hall d (List.mem_cons_self d ds))
    · simp [match_data, if_neg h, ih, h]

/-- The data scan either fails (0) or reports `selector + 1` for a stored
datum equal to the comparison buffer. -/
theorem match_data_cases (cmp : Bytes) (sel : Nat) (ds : List Bytes) :
    match_data cmp sel ds = 0 ∨
      (match_data cmp sel ds = (sel : Int) + 1 ∧ ∃ d ∈ ds, d = cmp) := by
  induction ds with
  | nil => exact Or.inl rfl
  | cons d ds ih =>
    by_cases h : d = cmp
    · exact Or.inr ⟨by simp [match_data, if_pos h], d, List.mem_cons_self d ds, h⟩
    · rcases ih with h0 | ⟨hs, e, he, hec⟩
      · exact Or.inl (by simp [match_data, if_neg h, h0])
      · exact Or.inr ⟨by simp [match_data, if_neg h, hs], e, List.mem_cons_of_mem d he, hec⟩

/-- One mtype entry scans to a clean failure, a hit at `selector + 1`, or a
digest error. -/
theorem match_mtype_cases (env : Env Cert Key) (buf : Bytes) (sel : Nat) (m : dane_mtype) :
    (match_mtype env buf sel m = 0 ∧ mtype_clean env buf m = true) ∨
    (match_mtype env buf sel m = (sel : Int) + 1 ∧ mtype_hit env buf m = true) ∨
    (match_mtype env buf sel m = -1 ∧
      ∃ alg, m.md = some alg ∧ env.digest alg buf = none) := by
  obtain ⟨md, mdl, data⟩ := m
  cases md with
  | none =>
    rcases match_data_cases buf sel data with h0 | ⟨hs, e, he, hec⟩
    · refine Or.inl ⟨h0, ?_⟩
      simp only [mtype_clean, List.all_eq_true, decide_eq_true_eq]
      exact (match_data_eq_zero buf sel data).mp h0
    · refine Or.inr (Or.inl ⟨hs, ?_⟩)
      simp only [mtype_hit, List.any_eq_true, decide_eq_true_eq]
      exact ⟨e, he, hec⟩
  | some alg =>
    cases hdg : env.digest alg buf with
    | none =>
      refine Or.inr (Or.inr ⟨?_, alg, rfl, hdg⟩)
      simp only [match_mtype, hdg]
    | some hsh =>
      rcases match_data_cases hsh sel data with h0 | ⟨hs, e, he, hec⟩
      · refine Or.inl ⟨?_, ?_⟩
        · simp only [match_mtype, hdg]; exact h0
        · simp only [mtype_clean, hdg, List.all_eq_true, decide_eq_true_eq]
          exact (match_data_eq_zero hsh sel data).mp h0
      · refine Or.inr (Or.inl ⟨?_, ?_⟩)
        · simp only [match_mtype, hdg]; exact hs
        · simp only [mtype_hit, hdg, List.any_eq_true, decide_eq_true_eq]
          exact ⟨e, he, hec⟩

/-- The mtype loop scans to a clean failure of every entry, a hit at
`selector + 1`, or a digest error on some entry. -/
theorem match_mtypes_cases (env : Env Cert Key) (buf : Bytes) (sel : Nat)
    (ms : List dane_mtype) :
    (match_mtypes env buf sel ms = 0 ∧ ∀ m ∈ ms, mtype_clean env buf m = true) ∨
    (match_mtypes env buf sel ms = (sel : Int) + 1 ∧ ∃ m ∈ ms, mtype_hit env buf m = true) ∨
    (match_mtypes env buf sel ms = -1 ∧
      ∃ m ∈ ms, ∃ alg, m.md = some alg ∧ env.digest alg buf = none) := by
  induction ms with
  | nil => exact Or.inl ⟨rfl, by simp⟩
  | cons m ms ih =>
    rcases match_mtype_cases env buf sel m with ⟨h0, hcl⟩ | ⟨hs, hh⟩ | ⟨he, alg, hmd, hdg⟩
    · rcases ih with ⟨ih0, ihcl⟩ | ⟨ihs, e, hem, hh⟩ | ⟨ihe, e, hem, alg, hmd, hdg⟩
      · refine Or.inl ⟨by simp only [match_mtypes, if_pos h0]; exact ih0, ?_⟩
        intro x hx
        rcases List.mem_cons.mp hx with rfl | hx
        · exact hcl
        · exact ihcl x hx
      · exact Or.inr (Or.inl ⟨by simp only [match_mtypes, if_pos h0]; exact ihs,
          e, List.mem_cons_of_mem m hem, hh⟩)
      · exact Or.inr (Or.inr ⟨by simp only [match_mtypes, if_pos h0]; exact ihe,
          e, List.mem_cons_of_mem m hem, alg, hmd, hdg⟩)
    · have hne : match_mtype env buf sel m ≠ 0 := by rw [hs]; omega
      exact Or.inr (Or.inl ⟨by simp only [match_mtypes, if_neg hne]; exact hs,
        m, List.mem_cons_self m ms, hh⟩)
    · have hne : match_mtype env buf sel m ≠ 0 := by rw [he]; omega
      exact Or.inr (Or.inr ⟨by simp only [match_mtypes, if_neg hne]; exact he,
        m, List.mem_cons_self m ms, alg, hmd, hdg⟩)

/-- An mtype entry cannot both hit and fail cleanly. -/
theorem mtype_hit_not_clean (env : Env Cert Key) (buf : Bytes) (m : dane_mtype)
    (hh : mtype_hit env buf m = true) : mtype_clean env buf m = false := by
  obtain ⟨md, mdl, data⟩ := m
  cases md with
  | none =>
    simp only [mtype_hit, List.any_eq_true, decide_eq_true_eq] at hh
    obtain ⟨d, hd, rfl⟩ := hh
    simp only [mtype_clean, List.all_eq_false]
    exact ⟨d, hd, by simp⟩
  | some alg =>
    cases hdg : env.digest alg buf with
    | none =>
      simp only [mtype_hit, hdg] at hh
      exact absurd hh (by decide)
    | some hsh =>
      simp only [mtype_hit, hdg, List.any_eq_true, decide_eq_true_eq] at hh
      obtain ⟨d, hd, rfl⟩ := hh
      simp only [mtype_clean, hdg, List.all_eq_false]
      exact ⟨d, hd, by simp⟩

/-- The comparison bytes of a selector entry against a certificate. -/
def sel_buf (env : Env Cert Key) (cert : Cert) (s : dane_selector) : Bytes :=
  selector_bytes env cert s.selector

/-- The selector loop scans to a clean failure of every record, a hit
reporting its selector, or a digest error. -/
theorem match_tlsa_cases (env : Env Cert Key) (slist : List dane_selector) (cert : Cert)
    (dp : Int) :
    (match_tlsa env slist cert dp = 0 ∧
      ∀ s ∈ slist, s.mtype.all (mtype_clean env (sel_buf env cert s)) = true) ∨
    (∃ s ∈ slist, match_tlsa env slist cert dp = (s.selector : Int) + 1 ∧
      s.mtype.any (mtype_hit env (sel_buf env cert s)) = true) ∨
    (match_tlsa env slist cert dp = -1 ∧
      ∃ s ∈ slist, ∃ m ∈ s.mtype, ∃ alg, m.md = some alg ∧
        env.digest alg (sel_buf env cert s) = none) := by
  induction slist with
  | nil => exact Or.inl ⟨rfl, by simp⟩
  | cons s ss ih =>
    rcases match_mtypes_cases env (selector_bytes env cert s.selector) s.selector s.mtype with
      ⟨h0, hcl⟩ | ⟨hs, e, hem, hh⟩ | ⟨he, e, hem, alg, hmd, hdg⟩
    · rcases ih with ⟨ih0, ihcl⟩ | ⟨t, ht, ihs, ihh⟩ | ⟨ihe, t, ht, m, hm, alg, hmd, hdg⟩
      · refine Or.inl ⟨by simp only [match_tlsa, if_pos h0]; exact ih0, ?_⟩
        intro x hx
        rcases List.mem_cons.mp hx with rfl | hx
        · simp only [List.all_eq_true]
          intro m hm
          exact hcl m hm
        · exact ihcl x hx
      · exact Or.inr (Or.inl ⟨t, List.mem_cons_of_mem s ht,
          by simp only [match_tlsa, if_pos h0]; exact ihs, ihh⟩)
      · exact Or.inr (Or.inr ⟨by simp only [match_tlsa, if_pos h0]; exact ihe,
          t, List.mem_cons_of_mem s ht, m, hm, alg, hmd, hdg⟩)
    · have hne : match_mtypes env (selector_bytes env cert s.selector) s.selector s.mtype ≠ 0 := by
        rw [hs]; omega
      refine Or.inr (Or.inl ⟨s, List.mem_cons_self s ss,
        by simp only [match_tlsa, if_neg hne]; exact hs, ?_⟩)
      simp only [List.any_eq_true]
      exact ⟨e, hem, hh⟩
    · have hne : match_mtypes env (selector_bytes env cert s.selector) s.selector s.mtype ≠ 0 := by
        rw [he]; omega
      exact Or.inr (Or.inr ⟨by simp only [match_tlsa, if_neg hne]; exact he,
        s, List.mem_cons_self s ss, e, hem, alg, hmd, hdg⟩)

/-- The selector scan of `match` short-circuits: scanning a concatenation
first scans the front list, and only on its clean failure (0) proceeds to
the back list — the first matching record wins. -/
theorem match_tlsa_append (env : Env Cert Key) (l1 l2 : List dane_selector) (cert : Cert)
    (dp : Int) :
    match_tlsa env (l1 ++ l2) cert dp =
      if match_tlsa env l1 cert dp = 0 then match_tlsa env l2 cert dp
      else match_tlsa env l1 cert dp := by
  induction l1 with
  | nil => simp [match_tlsa]
  | cons s ss ih =>
    simp only [List.cons_append, match_tlsa]
    by_cases h : match_mtypes env (selector_bytes env cert s.selector) s.selector s.mtype = 0
    · simp [h, ih]
    · simp [h]

/-! ### Claim theorems: the matching engine -/

/-- C4: for every record list (with the selectors validated by
`SSL_dane_add_tlsa`) and candidate certificate, `match` returns one of
-1, 0, `MATCHED_CERT`, `MATCHED_PKEY`; it short-circuits, the first
matching record winning (scanning a concatenation decides on the front
list unless that fails cleanly with 0); it returns 0 exactly when every
selector, matching type and stored data element fails cleanly; a positive
result identifies whether the winning record used the full-certificate or
the public-key selector; and a digest-computation failure yields -1,
distinct from the NoMatch result 0. -/
theorem C4_thm (env : Env Cert Key) (slist l2 : List dane_selector) (cert : Cert) (dp : Int)
    (ws : ∀ s ∈ slist, s.selector ≤ SSL_DANE_SELECTOR_LAST) :
    (match_tlsa env slist cert dp = -1 ∨ match_tlsa env slist cert dp = 0 ∨
      match_tlsa env slist cert dp = MATCHED_CERT ∨
      match_tlsa env slist cert dp = MATCHED_PKEY) ∧
    (match_tlsa env (slist ++ l2) cert dp =
      if match_tlsa env slist cert dp = 0 then match_tlsa env l2 cert dp
      else match_tlsa env slist cert dp) ∧
    (match_tlsa env slist cert dp = 0 ↔
      ∀ s ∈ slist, s.mtype.all (mtype_clean env (sel_buf env cert s)) = true) ∧
    (match_tlsa env slist cert dp = MATCHED_CERT →
      ∃ s ∈ slist, s.selector = SSL_DANE_SELECTOR_CERT ∧
        s.mtype.any (mtype_hit env (sel_buf env cert s)) = true) ∧
    (match_tlsa env slist cert dp = MATCHED_PKEY →
      ∃ s ∈ slist, s.selector = SSL_DANE_SELECTOR_SPKI ∧
        s.mtype.any (mtype_hit env (sel_buf env cert s)) = true) ∧
    (match_tlsa env slist cert dp = -1 →
      ∃ s ∈ slist, ∃ m ∈ s.mtype, ∃ alg, m.md = some alg ∧
        env.digest alg (sel_buf env cert s) = none) := by
  refine ⟨?_, match_tlsa_append env slist l2 cert dp, ⟨?_, ?_⟩, ?_, ?_, ?_⟩
  · rcases match_tlsa_cases env slist cert dp with ⟨h0, _⟩ | ⟨s, hs, hr, _⟩ | ⟨he, _⟩
    · exact Or.inr (Or.inl h0)
    · have hsel := ws s hs
      unfold SSL_DANE_SELECTOR_LAST at hsel
      rcases Nat.lt_or_ge s.selector 1 with h1 | h1
      · have : s.selector = 0 := by omega
        rw [this] at hr
        exact Or.inr (Or.inr (Or.inl (by rw [hr]; rfl)))
      · have : s.selector = 1 := by omega
        rw [this] at hr
        exact Or.inr (Or.inr (Or.inr (by rw [hr]; rfl)))
    · exact Or.inl he
  · intro hz
    rcases match_tlsa_cases env slist cert dp with ⟨_, hcl⟩ | ⟨s, _, hr, _⟩ | ⟨he, _⟩
    · exact hcl
    · rw [hz] at hr; omega
    · rw [hz] at he; omega
  · intro hcl
    rcases match_tlsa_cases env slist cert dp with ⟨h0, _⟩ | ⟨s, hs, hr, hh⟩ |
      ⟨he, s, hs, m, hm, alg, hmd, hdg⟩
    · exact h0
    · simp only [List.any_eq_true] at hh
      obtain ⟨m, hm, hmh⟩ := hh
      have := mtype_hit_not_clean env (sel_buf env cert s) m hmh
      have hcls := List.all_eq_true.mp (hcl s hs) m hm
      rw [this] at hcls
      exact absurd hcls (by decide)
    · have hclm := List.all_eq_true.mp (hcl s hs) m hm
      obtain ⟨md, mdl, data⟩ := m
      simp only at hmd
      subst hmd
      simp only [mtype_clean, hdg] at hclm
      exact absurd hclm (by decide)
  · intro h1
    rcases match_tlsa_cases env slist cert dp with ⟨h0, _⟩ | ⟨s, hs, hr, hh⟩ | ⟨he, _⟩
    · rw [h1] at h0; exact absurd h0 (by decide)
    · refine ⟨s, hs, ?_, hh⟩
      rw [h1] at hr
      unfold MATCHED_CERT SSL_DANE_SELECTOR_CERT at hr
      unfold SSL_DANE_SELECTOR_CERT
      omega
    · rw [h1] at he; exact absurd he (by decide)
  · intro h2
    rcases match_tlsa_cases env slist cert dp with ⟨h0, _⟩ | ⟨s, hs, hr, hh⟩ | ⟨he, _⟩
    · rw [h2] at h0; exact absurd h0 (by decide)
    · refine ⟨s, hs, ?_, hh⟩
      rw [h2] at hr
      unfold MATCHED_PKEY SSL_DANE_SELECTOR_SPKI at hr
      unfold SSL_DANE_SELECTOR_SPKI
      omega
    · rw [h2] at he; exact absurd he (by decide)
  · intro hm1
    rcases match_tlsa_cases env slist cert dp with ⟨h0, _⟩ | ⟨s, hs, hr, _⟩ |
      ⟨he, s, hs, m, hm, alg, hmd, hdg⟩
    · rw [hm1] at h0; exact absurd h0 (by decide)
    · rw [hm1] at hr; omega
    · exact ⟨s, hs, m, hm, alg, hmd, hdg⟩

/-- C4 witness: a single full-certificate full-object record for certificate
0 gives a `MATCHED_CERT` result, the range, short-circuit, exhaustiveness
and identification statements holding at this concrete instance. -/
theorem C4_witness :
    (match_tlsa env0 [rawRecord 0 [0]] 0 0 = -1 ∨ match_tlsa env0 [rawRecord 0 [0]] 0 0 = 0 ∨
      match_tlsa env0 [rawRecord 0 [0]] 0 0 = MATCHED_CERT ∨
      match_tlsa env0 [rawRecord 0 [0]] 0 0 = MATCHED_PKEY) ∧
    (match_tlsa env0 [rawRecord 0 [0]] 0 0 = MATCHED_CERT →
      ∃ s ∈ [rawRecord 0 [0]], s.selector = SSL_DANE_SELECTOR_CERT ∧
        s.mtype.any (mtype_hit env0 (sel_buf env0 0 s)) = true) := by
  have h := C4_thm env0 [rawRecord 0 [0]] [] 0 0 (by decide)
  exact ⟨h.1, h.2.2.2.1⟩

/-! ### Helper lemmas about the chain walk

The walk consults the record store only through
`dane.selectors SSL_DANE_USAGE_TRUSTED_CA`: replacing the whole selector
table by any function that agrees at index 2 commutes with every function
on the walk path. -/

/-- Replace the whole selector table of a DANE state. -/
def with_selectors (dane : SSL_DANE Cert Key) (f : Nat → List dane_selector) :
    SSL_DANE Cert Key :=
  { dane with selectors := f }

theorem wrap_key_root_with_selectors (env : Env Cert Key) (dane : SSL_DANE Cert Key)
    (f : Nat → List dane_selector) (depth : Nat) (subject : Cert) :
    wrap_key_root env (with_selectors dane f) depth subject
      = ((wrap_key_root env dane depth subject).fst,
         with_selectors (wrap_key_root env dane depth subject).snd f) := rfl

theorem wrap_key_with_selectors (env : Env Cert Key) (g : Globals Key)
    (dane : SSL_DANE Cert Key) (f : Nat → List dane_selector) (depth : Nat)
    (key : Option Key) (subject : Cert) :
    wrap_key env g (with_selectors dane f) depth key subject
      = ((wrap_key env g dane depth key subject).fst,
         with_selectors (wrap_key env g dane depth key subject).snd f) := by
  cases key with
  | none => rfl
  | some k =>
    simp only [wrap_key, with_selectors]
    by_cases hw : g.wrap_signed && !(akid_selfsigned env subject)
    · simp [hw, wrap_key_root]
    · simp [hw]

theorem wrap_cert_with_selectors (env : Env Cert Key) (g : Globals Key)
    (dane : SSL_DANE Cert Key) (f : Nat → List dane_selector) (depth : Nat)
    (tacert subject : Cert) :
    wrap_cert env g (with_selectors dane f) depth tacert subject
      = ((wrap_cert env g dane depth tacert subject).fst,
         with_selectors (wrap_cert env g dane depth tacert subject).snd f) := by
  simp only [wrap_cert, with_selectors]
  by_cases hc : (!g.wrap_signed || env.checkIssued tacert tacert)
  · simp [hc]
  · simp only [hc, Bool.false_eq_true, if_false]
    exact wrap_key_with_selectors env g
      { dane with depth := (depth : Int),
                  chain := dane.chain ++ [env.signWithSignkey tacert] }
      f (depth + 1) g.signkey (env.signWithSignkey tacert)

theorem ta_signed_certs_with_selectors (env : Env Cert Key) (g : Globals Key) (cert : Cert)
    (depth : Nat) (xs : List Cert) (dane : SSL_DANE Cert Key)
    (f : Nat → List dane_selector) :
    ta_signed_certs env g cert depth xs (with_selectors dane f)
      = ((ta_signed_certs env g cert depth xs dane).fst,
         with_selectors (ta_signed_certs env g cert depth xs dane).snd f) := by
  induction xs generalizing dane with
  | nil => rfl
  | cons x xs ih =>
    simp only [ta_signed_certs]
    by_cases h1 : env.checkIssued x cert
    · simp only [h1, if_true]
      cases env.pubkey x with
      | none => rfl
      | some pk =>
        by_cases h2 : env.verifySig cert pk
        · simp only [h2, if_true]
          rw [wrap_cert_with_selectors]
        · simp only [h2, Bool.false_eq_true, if_false]
          exact ih dane
    · simp only [h1, Bool.false_eq_true, if_false]
      exact ih dane

theorem ta_signed_keys_with_selectors (env : Env Cert Key) (g : Globals Key) (cert : Cert)
    (depth : Nat) (ks : List Key) (dane : SSL_DANE Cert Key)
    (f : Nat → List dane_selector) :
    ta_signed_keys env g cert depth ks (with_selectors dane f)
      = ((ta_signed_keys env g cert depth ks dane).fst,
         with_selectors (ta_signed_keys env g cert depth ks dane).snd f) := by
  induction ks generalizing dane with
  | nil => rfl
  | cons k ks ih =>
    simp only [ta_signed_keys]
    by_cases h1 : env.verifySig cert k
    · simp only [h1, if_true]
      rw [wrap_key_with_selectors]
    · simp only [h1, Bool.false_eq_true, if_false]
      exact ih dane

theorem ta_signed_with_selectors (env : Env Cert Key) (g : Globals Key)
    (dane : SSL_DANE Cert Key) (f : Nat → List dane_selector) (cert : Cert) (depth : Nat) :
    ta_signed env g (with_selectors dane f) cert depth
      = ((ta_signed env g dane cert depth).fst,
         with_selectors (ta_signed env g dane cert depth).snd f) := by
  simp only [ta_signed]
  have hcerts : (with_selectors dane f).certs = dane.certs := rfl
  rw [hcerts, ta_signed_certs_with_selectors]
  by_cases h1 : (ta_signed_certs env g cert depth dane.certs dane).fst ≠ 0
  · simp [h1]
  · simp only [ne_eq, not_not] at h1
    simp only [h1, ne_eq, not_true_eq_false, if_false]
    have hpk : (with_selectors (ta_signed_certs env g cert depth dane.certs dane).snd f).pkeys
        = (ta_signed_certs env g cert depth dane.certs dane).snd.pkeys := rfl
    rw [hpk, ta_signed_keys_with_selectors]

theorem sta_loop_with_selectors (env : Env Cert Key) (g : Globals Key) (n : Nat) :
    ∀ (dane : SSL_DANE Cert Key) (f : Nat → List dane_selector),
    f SSL_DANE_USAGE_TRUSTED_CA = dane.selectors SSL_DANE_USAGE_TRUSTED_CA →
    ∀ (inL : List Cert) (cert : Cert) (depth : Nat),
    sta_loop env g (with_selectors dane f) n inL cert depth
      = ((sta_loop env g dane n inL cert depth).fst,
         with_selectors (sta_loop env g dane n inL cert depth).snd.fst f,
         (sta_loop env g dane n inL cert depth).snd.snd) := by
  induction n with
  | zero => intro dane f hf inL cert depth; rfl
  | succ n ih =>
    intro dane f hf inL cert depth
    simp only [sta_loop]
    cases hfi : find_issuer_idx env inL cert with
    | none => rfl
    | some i =>
      have hsel : (with_selectors dane f).selectors SSL_DANE_USAGE_TRUSTED_CA
          = dane.selectors SSL_DANE_USAGE_TRUSTED_CA := hf
      rw [hsel]
      by_cases hm0 : match_tlsa env (dane.selectors SSL_DANE_USAGE_TRUSTED_CA)
          (inL.getD i cert) ((depth : Int) + 1) = 0
      · simp only [hm0, if_true]
        by_cases hss : env.checkIssued (inL.getD i cert) (inL.getD i cert)
        · simp only [hss, Bool.not_true, Bool.false_eq_true, if_false]
          rfl
        · simp only [Bool.not_eq_true] at hss
          simp only [hss, Bool.not_false, if_true]
          exact ih { dane with chain := dane.chain ++ [inL.getD i cert] } f hf
            (inL.eraseIdx i) (inL.getD i cert) (depth + 1)
      · simp only [hm0, if_false]
        by_cases hmc : match_tlsa env (dane.selectors SSL_DANE_USAGE_TRUSTED_CA)
            (inL.getD i cert) ((depth : Int) + 1) = MATCHED_CERT
        · simp only [hmc, if_true]
          rw [wrap_cert_with_selectors]
        · simp only [hmc, if_false]
          by_cases hmp : match_tlsa env (dane.selectors SSL_DANE_USAGE_TRUSTED_CA)
              (inL.getD i cert) ((depth : Int) + 1) = MATCHED_PKEY
          · simp only [hmp, if_true]
            cases env.pubkey (inL.getD i cert) with
            | none => rfl
            | some takey =>
              dsimp only
              rw [wrap_key_with_selectors]
          · simp only [hmp, if_false]

theorem set_trust_anchor_with_selectors (env : Env Cert Key) (g : Globals Key)
    (dane : SSL_DANE Cert Key) (f : Nat → List dane_selector)
    (hf : f SSL_DANE_USAGE_TRUSTED_CA = dane.selectors SSL_DANE_USAGE_TRUSTED_CA)
    (ctx : X509_STORE_CTX Cert) (cert : Cert) :
    set_trust_anchor env g (with_selectors dane f) ctx cert
      = ((set_trust_anchor env g dane ctx cert).fst,
         with_selectors (set_trust_anchor env g dane ctx cert).snd.fst f,
         (set_trust_anchor env g dane ctx cert).snd.snd) := by
  simp only [set_trust_anchor]
  have hsel : (with_selectors dane f).selectors SSL_DANE_USAGE_TRUSTED_CA
      = dane.selectors SSL_DANE_USAGE_TRUSTED_CA := hf
  by_cases hd : env.checkIssued cert cert
  · simp only [hd, if_true, hsel]
    by_cases hm : 0 < match_tlsa env (dane.selectors SSL_DANE_USAGE_TRUSTED_CA) cert 0
    · simp only [hm, if_true]; rfl
    · simp only [hm, if_false]
  · simp only [hd, Bool.false_eq_true, if_false]
    have huntr : (with_selectors dane f).selectors = f := rfl
    rw [sta_loop_with_selectors env g _ dane f hf]
    by_cases hneg : (sta_loop env g dane ctx.untrusted.length ctx.untrusted cert 0).fst < 0
    · simp only [hneg, if_true]
    · simp only [hneg, if_false]
      by_cases hz : (sta_loop env g dane ctx.untrusted.length ctx.untrusted cert 0).fst = 0
      · simp only [hz, if_true]
        cases hco : (sta_loop env g dane ctx.untrusted.length ctx.untrusted cert 0).snd.snd.fst with
        | none => rfl
        | some c =>
          dsimp only
          rw [ta_signed_with_selectors]
          by_cases hle : (ta_signed env g
              (sta_loop env g dane ctx.untrusted.length ctx.untrusted cert 0).snd.fst c
              (sta_loop env g dane ctx.untrusted.length ctx.untrusted cert 0).snd.snd.snd).fst ≤ 0
          · simp only [hle, if_true]
          · simp only [hle, if_false]
            rfl
      · simp only [hz, if_false]
        rfl

/-- The depth argument of `match` is never read: the result is the same at
every depth. -/
theorem match_tlsa_depth_irrel (env : Env Cert Key) (slist : List dane_selector) (cert : Cert)
    (d1 d2 : Int) : match_tlsa env slist cert d1 = match_tlsa env slist cert d2 := by
  induction slist with
  | nil => rfl
  | cons s ss ih =>
    simp only [match_tlsa]
    rw [ih]

/-- After the usage-3 phase, `verify_cert_tail` runs the walk exactly when
usage-2 records exist. -/
theorem verify_cert_tail_ranWalk (env : Env Cert Key) (g : Globals Key)
    (dane : SSL_DANE Cert Key) (ctx : X509_STORE_CTX Cert) (cert : Cert)
    (h2 : (dane.selectors SSL_DANE_USAGE_TRUSTED_CA).isEmpty = false) :
    (verify_cert_tail env g dane ctx cert).ranWalk = true := by
  unfold verify_cert_tail
  rw [h2]
  by_cases hlt : (set_trust_anchor env g dane ctx cert).fst < 0 <;> simp [hlt]

/-- When usage-2 records exist and the usage-3 end-entity check does not fire
(no usage-3 records, or a clean 0 from `match`), `verify_cert` invokes the
trust-anchor walk. -/
theorem verify_cert_runs_walk (env : Env Cert Key) (g : Globals Key) (cb : Int → Int)
    (dane : SSL_DANE Cert Key) (ctx : X509_STORE_CTX Cert) (cert : Cert)
    (hc : ctx.cert = some cert)
    (h2 : dane.selectors SSL_DANE_USAGE_TRUSTED_CA ≠ [])
    (h3 : match_tlsa env (dane.selectors SSL_DANE_USAGE_FIXED_LEAF) cert 0 = 0) :
    (verify_cert env g cb dane ctx).ranWalk = true := by
  have h2e : (dane.selectors SSL_DANE_USAGE_TRUSTED_CA).isEmpty = false := by
    cases he : dane.selectors SSL_DANE_USAGE_TRUSTED_CA with
    | nil => exact absurd he h2
    | cons a l => rfl
  unfold verify_cert
  rw [hc]
  by_cases h3e : (dane.selectors SSL_DANE_USAGE_FIXED_LEAF).isEmpty
  · simp only [h3e, if_true]
    exact verify_cert_tail_ranWalk env g dane ctx cert h2e
  · simp only [h3e, Bool.false_eq_true, if_false]
    have hfst := check_end_entity_fst env ctx dane cert
    rw [h3] at hfst
    simp only [hfst, lt_irrefl, if_false, lt_self_iff_false]
    exact verify_cert_tail_ranWalk env g dane (check_end_entity env ctx dane cert).snd cert h2e

/-! ### Claim theorems: the trust-anchor walk and the orchestrator condition -/

/-- A state holding one usage-0 (PKIX-TA) record and nothing else. -/
def daneU0 : SSL_DANE Nat Nat :=
  { dane0 with selectors := fun u =>
      if u = SSL_DANE_USAGE_LIMIT_ISSUER then [rawRecord 0 [9]] else [] }

/-- A state holding a usage-0 record matching the presented issuer
(certificate 1, DER `[1]`) and a usage-2 record matching nothing. -/
def daneBoth : SSL_DANE Nat Nat :=
  { dane0 with selectors := fun u =>
      if u = SSL_DANE_USAGE_LIMIT_ISSUER then [rawRecord 0 [1]]
      else if u = SSL_DANE_USAGE_TRUSTED_CA then [rawRecord 0 [9, 9]] else [] }

/-- C1 counterexample: the claim fails on two counts.  First, with a usage-0
(PKIX-TA) record present, no usage-3 records, and a live leaf certificate,
`verify_cert` never runs the trust-anchor walk — the walk is gated on
usage-2 records only.  Second, when the walk does run (usage-2 records
present), it does not match the consumed issuer against the usage-0
record set: with a usage-0 record that matches the consumed issuer
certificate 1 exactly (`MATCHED_CERT`), the walk still ends with 0. -/
theorem C1_counterexample :
    daneU0.selectors SSL_DANE_USAGE_LIMIT_ISSUER ≠ [] ∧
    daneU0.selectors SSL_DANE_USAGE_FIXED_LEAF = [] ∧
    ctx0.cert = some 0 ∧
    (verify_cert env0 g0 cb0 daneU0 ctx0).ranWalk = false ∧
    match_tlsa env0 (daneBoth.selectors SSL_DANE_USAGE_LIMIT_ISSUER) 1 1 = MATCHED_CERT ∧
    (set_trust_anchor env0 g0 daneBoth ctx0 0).fst = 0 := by
  decide

/-- C1 amended: (i) when the DANE state holds at least one usage-2 (DANE-TA)
record and the leaf is not handled by the usage-3 short-circuit,
`verify_cert` runs the trust-anchor chain walk; (ii) the walk consults the
record store only through the usage-2 (`SSL_DANE_USAGE_TRUSTED_CA`) set:
replacing every other usage's records arbitrarily changes neither the
walk's result nor the state and store-context it produces; (iii) each
candidate issuer the walk consumes is matched against that usage-2 set at
the current depth + 1, a clean no-match on a non-self-signed issuer
advancing the walk one level. -/
theorem C1_amended_thm :
    (∀ (Cert Key : Type) (env : Env Cert Key) (g : Globals Key) (cb : Int → Int)
        (dane : SSL_DANE Cert Key) (ctx : X509_STORE_CTX Cert) (cert : Cert),
      ctx.cert = some cert →
      dane.selectors SSL_DANE_USAGE_TRUSTED_CA ≠ [] →
      match_tlsa env (dane.selectors SSL_DANE_USAGE_FIXED_LEAF) cert 0 = 0 →
      (verify_cert env g cb dane ctx).ranWalk = true) ∧
    (∀ (Cert Key : Type) (env : Env Cert Key) (g : Globals Key) (dane : SSL_DANE Cert Key)
        (f : Nat → List dane_selector),
      f SSL_DANE_USAGE_TRUSTED_CA = dane.selectors SSL_DANE_USAGE_TRUSTED_CA →
      ∀ (ctx : X509_STORE_CTX Cert) (cert : Cert),
      set_trust_anchor env g (with_selectors dane f) ctx cert
        = ((set_trust_anchor env g dane ctx cert).fst,
           with_selectors (set_trust_anchor env g dane ctx cert).snd.fst f,
           (set_trust_anchor env g dane ctx cert).snd.snd)) ∧
    (∀ (Cert Key : Type) (env : Env Cert Key) (g : Globals Key) (dane : SSL_DANE Cert Key)
        (n : Nat) (inL : List Cert) (cert : Cert) (depth i : Nat),
      find_issuer_idx env inL cert = some i →
      match_tlsa env (dane.selectors SSL_DANE_USAGE_TRUSTED_CA) (inL.getD i cert)
        ((depth : Int) + 1) = 0 →
      env.checkIssued (inL.getD i cert) (inL.getD i cert) = false →
      sta_loop env g dane (n + 1) inL cert depth
        = sta_loop env g { dane with chain := dane.chain ++ [inL.getD i cert] } n
            (inL.eraseIdx i) (inL.getD i cert) (depth + 1)) := by
  refine ⟨?_, ?_, ?_⟩
  · intro Cert Key env g cb dane ctx cert hc h2 h3
    exact verify_cert_runs_walk env g cb dane ctx cert hc h2 h3
  · intro Cert Key env g dane f hf ctx cert
    exact set_trust_anchor_with_selectors env g dane f hf ctx cert
  · intro Cert Key env g dane n inL cert depth i hfi hm hss
    simp only [sta_loop]
    rw [hfi]
    dsimp only
    simp only [hm, if_true, hss, Bool.not_false, if_true]

/-- C1 witness: with one usage-2 record (matching nothing) and no usage-3
records, `verify_cert` runs the walk on the live connection `ctx0`. -/
theorem C1_witness :
    (verify_cert env0 g0 cb0
        { dane0 with selectors := fun u =>
            if u = SSL_DANE_USAGE_TRUSTED_CA then [rawRecord 0 [9, 9]] else [] }
        ctx0).ranWalk = true :=
  C1_amended_thm.1 Nat Nat env0 g0 cb0
    { dane0 with selectors := fun u =>
        if u = SSL_DANE_USAGE_TRUSTED_CA then [rawRecord 0 [9, 9]] else [] }
    ctx0 0 rfl (by decide) (by decide)

/-- A state with a usage-2 record matching nothing and a registered bare
trust-anchor key 5 (which verifies the signature of certificate 1). -/
def daneC7 : SSL_DANE Nat Nat :=
  { dane0 with
    selectors := fun u =>
      if u = SSL_DANE_USAGE_TRUSTED_CA then [rawRecord 0 [9, 9]] else [],
    pkeys := [5] }

/-- Like `env0`, but certificate 1 is not self-signed. -/
def env0ns : Env Nat Nat :=
  { env0 with checkIssued := fun i s => i = 1 && s = 0 }

/-- C7 counterexample: the consumed issuer (certificate 1) matches no record
and is self-signed, and the registered bare anchor key 5 verifies its
signature (`ta_signed` on it returns 1) — yet `set_trust_anchor` returns 0:
the fallback was not tested.  With the sole difference that certificate 1
is not self-signed (`env0ns`), the same state produces 1 via the fallback,
pinning the skip to the self-signed case. -/
theorem C7_counterexample :
    (set_trust_anchor env0 g0 daneC7 ctx0 0).fst = 0 ∧
    (ta_signed env0 g0 daneC7 1 0).fst = 1 ∧
    (set_trust_anchor env0ns g0 daneC7 ctx0 0).fst = 1 := by
  decide

/-- C7 amended: when the consumed issuer certificate matches no usage-2
record and is itself self-signed, the walk records it on the untrusted
chain, stops with the subject cleared, and the signature fallback is
skipped: (i) one walk step returns matched 0 with no unresolved subject;
(ii) at the `set_trust_anchor` level (here for a single-element untrusted
chain) the result is 0 with only the chain extended, independently of
whatever bare anchor certificates and keys are registered — they are not
tested. -/
theorem C7_amended_thm :
    (∀ (Cert Key : Type) (env : Env Cert Key) (g : Globals Key) (dane : SSL_DANE Cert Key)
        (n : Nat) (inL : List Cert) (cert : Cert) (depth i : Nat),
      find_issuer_idx env inL cert = some i →
      match_tlsa env (dane.selectors SSL_DANE_USAGE_TRUSTED_CA) (inL.getD i cert)
        ((depth : Int) + 1) = 0 →
      env.checkIssued (inL.getD i cert) (inL.getD i cert) = true →
      sta_loop env g dane (n + 1) inL cert depth
        = (0, { dane with chain := dane.chain ++ [inL.getD i cert] }, none, depth)) ∧
    (∀ (Cert Key : Type) (env : Env Cert Key) (g : Globals Key) (dane : SSL_DANE Cert Key)
        (ctx : X509_STORE_CTX Cert) (cert ca : Cert) (pk : List Key) (ck : List Cert),
      ctx.untrusted = [ca] →
      env.checkIssued cert cert = false →
      env.checkIssued ca cert = true →
      env.checkIssued ca ca = true →
      match_tlsa env (dane.selectors SSL_DANE_USAGE_TRUSTED_CA) ca 1 = 0 →
      set_trust_anchor env g { dane with pkeys := pk, certs := ck } ctx cert
        = (0, { dane with pkeys := pk, certs := ck, chain := dane.chain ++ [ca] }, ctx)) := by
  constructor
  · intro Cert Key env g dane n inL cert depth i hfi hm hss
    simp only [sta_loop]
    rw [hfi]
    dsimp only
    simp only [hm, if_true, hss, Bool.not_true, Bool.false_eq_true, if_false]
  · intro Cert Key env g dane ctx cert ca pk ck huntr hlf hisu hss hm
    have hfi : find_issuer_idx env [ca] cert = some 0 := by
      simp [find_issuer_idx, List.findIdx?, hisu]
    have hm0 : match_tlsa env
        (({ dane with pkeys := pk, certs := ck } : SSL_DANE Cert Key).selectors
          SSL_DANE_USAGE_TRUSTED_CA)
        (([ca] : List Cert).getD 0 cert) (((0 : Nat) : Int) + 1) = 0 := by
      have : (([ca] : List Cert).getD 0 cert) = ca := rfl
      rw [this]
      rw [match_tlsa_depth_irrel env _ ca _ 1]
      exact hm
    unfold set_trust_anchor
    rw [hlf]
    simp only [Bool.false_eq_true, if_false]
    rw [huntr]
    simp only [List.length_cons, List.length_nil]
    rw [sta_loop]
    rw [hfi]
    dsimp only
    simp only [List.getD_cons_zero] at hm0 ⊢
    simp only [hm0, if_true, hss, Bool.not_true, Bool.false_eq_true, if_false]
    rfl

/-- C7 witness: a concrete instance of the amended claim — empty record
store, issuer certificate 1 self-signed, registered key list `[5]`:
`set_trust_anchor` returns 0 with only the chain extended. -/
theorem C7_witness :
    set_trust_anchor env0 g0 { dane0 with pkeys := [5], certs := [] } ctx0 0
      = (0, { dane0 with pkeys := [5], certs := [], chain := dane0.chain ++ [1] }, ctx0) :=
  C7_amended_thm.2 Nat Nat env0 g0 dane0 ctx0 0 1 [5] [] rfl (by decide) (by decide)
    (by decide) (by decide)

end Danessl
